import Mathlib

/-!
# Verification of `libreoffice-convert-lambda` (`src/index.ts`)

A shallow embedding of the AWS Lambda handler that converts uploaded `.xlsx`
spreadsheets to PDF via a LibreOffice subprocess.

Modelling conventions:
* A JavaScript string is a list of UTF-16 code units (`JSStr := List Nat`);
  a Node `Buffer` is a list of bytes (`List Nat`, each `< 256`).
* `Buffer#toString()` is WHATWG UTF-8 decoding with replacement (`utf8Decode`);
  `Buffer.from(s)` is UTF-8 encoding (`utf8Encode`);
  `Buffer.from(s, "binary")` is latin1 encoding, which keeps each code unit
  modulo 256 (`latin1Encode`).
* Asynchronous I/O (file writes, the exceljs parser/serializer, the
  LibreOffice subprocess) is modelled by an explicit environment
  (`PipelineEnv`): each effect either succeeds with a value or throws, the
  thrown JavaScript error being represented by its detail `String`.
* The temporary filesystem `/tmp` is a map `String → Option (List Nat)`.
* The pipeline stages executed by a request are recorded in an execution
  trace (`List StageEvent`), in the order the code runs them.
-/

set_option maxRecDepth 100000

namespace LibreOfficeConvertLambda

/-- UTF-16 code units of a JavaScript string. -/
abbrev JSStr := List Nat

/-- Embed an ASCII Lean string literal as a JavaScript string (code units). -/
def str (s : String) : JSStr := s.toList.map Char.toNat

/-- `Buffer.from(s, "binary")`: latin1 encoding keeps each UTF-16 code unit
modulo 256 (Node masks with `& 0xFF`). -/
def latin1Encode (s : JSStr) : List Nat := s.map (· % 256)

/-- UTF-16 code units of a Unicode code point (surrogate pair above U+FFFF). -/
def cpUnits (c : Nat) : List Nat :=
  if c < 0x10000 then [c]
  else [0xD800 + (c - 0x10000) / 1024, 0xDC00 + (c - 0x10000) % 1024]

/-- A UTF-8 continuation byte. -/
def isCont (b : Nat) : Bool := 0x80 ≤ b && b ≤ 0xBF

/-- Allowed first continuation byte after lead `b` of a 3-byte sequence
(WHATWG: `E0 → A0..BF`, `ED → 80..9F`, otherwise `80..BF`). -/
def cont3ok (b b1 : Nat) : Bool :=
  if b = 0xE0 then 0xA0 ≤ b1 && b1 ≤ 0xBF
  else if b = 0xED then 0x80 ≤ b1 && b1 ≤ 0x9F
  else isCont b1

/-- Allowed first continuation byte after lead `b` of a 4-byte sequence
(WHATWG: `F0 → 90..BF`, `F4 → 80..8F`, otherwise `80..BF`). -/
def cont4ok (b b1 : Nat) : Bool :=
  if b = 0xF0 then 0x90 ≤ b1 && b1 ≤ 0xBF
  else if b = 0xF4 then 0x80 ≤ b1 && b1 ≤ 0x8F
  else isCont b1

/-- WHATWG UTF-8 decoder with U+FFFD replacement, producing UTF-16 code
units; `fuel` is an upper bound on the number of bytes (each step consumes
at least one byte, so `fuel = length` suffices).  On a malformed byte the
replacement character is emitted and decoding restarts at the offending
byte, exactly as `Buffer#toString()` does. -/
def utf8DecodeGo : Nat → List Nat → List Nat
  | 0, _ => []
  | _ + 1, [] => []
  | f + 1, b :: rest =>
    if b < 0x80 then b :: utf8DecodeGo f rest
    else if 0xC2 ≤ b && b ≤ 0xDF then
      match rest with
      | [] => [0xFFFD]
      | b1 :: r1 =>
        if isCont b1 then
          cpUnits ((b - 0xC0) * 64 + (b1 - 0x80)) ++ utf8DecodeGo f r1
        else 0xFFFD :: utf8DecodeGo f rest
    else if 0xE0 ≤ b && b ≤ 0xEF then
      match rest with
      | [] => [0xFFFD]
      | b1 :: r1 =>
        if cont3ok b b1 then
          match r1 with
          | [] => [0xFFFD]
          | b2 :: r2 =>
            if isCont b2 then
              cpUnits ((b - 0xE0) * 4096 + (b1 - 0x80) * 64 + (b2 - 0x80)) ++
                utf8DecodeGo f r2
            else 0xFFFD :: utf8DecodeGo f r1
        else 0xFFFD :: utf8DecodeGo f rest
    else if 0xF0 ≤ b && b ≤ 0xF4 then
      match rest with
      | [] => [0xFFFD]
      | b1 :: r1 =>
        if cont4ok b b1 then
          match r1 with
          | [] => [0xFFFD]
          | b2 :: r2 =>
            if isCont b2 then
              match r2 with
              | [] => [0xFFFD]
              | b3 :: r3 =>
                if isCont b3 then
                  cpUnits ((b - 0xF0) * 262144 + (b1 - 0x80) * 4096 +
                    (b2 - 0x80) * 64 + (b3 - 0x80)) ++ utf8DecodeGo f r3
                else 0xFFFD :: utf8DecodeGo f r2
            else 0xFFFD :: utf8DecodeGo f r1
        else 0xFFFD :: utf8DecodeGo f rest
      else 0xFFFD :: utf8DecodeGo f rest

/-- `Buffer#toString()`: WHATWG UTF-8 decoding of a byte buffer. -/
def utf8Decode (l : List Nat) : List Nat := utf8DecodeGo l.length l

/-- UTF-8 bytes of one BMP, non-surrogate code unit. -/
def utf8Bytes1 (u : Nat) : List Nat :=
  if u < 0x80 then [u]
  else if u < 0x800 then [0xC0 + u / 64, 0x80 + u % 64]
  else [0xE0 + u / 4096, 0x80 + u / 64 % 64, 0x80 + u % 64]

/-- `Buffer.from(s)` (default utf8): UTF-8 encoding of UTF-16 code units;
a lone surrogate encodes as U+FFFD (`EF BF BD`), as Node does. -/
def utf8Encode : JSStr → List Nat
  | [] => []
  | [u] =>
    if 0xD800 ≤ u && u < 0xE000 then [0xEF, 0xBF, 0xBD] else utf8Bytes1 u
  | u :: v :: rest =>
    if 0xD800 ≤ u && u < 0xDC00 then
      if 0xDC00 ≤ v && v < 0xE000 then
        let c := 0x10000 + (u - 0xD800) * 1024 + (v - 0xDC00)
        [0xF0 + c / 262144, 0x80 + c / 4096 % 64, 0x80 + c / 64 % 64,
          0x80 + c % 64] ++ utf8Encode rest
      else [0xEF, 0xBF, 0xBD] ++ utf8Encode (v :: rest)
    else if 0xDC00 ≤ u && u < 0xE000 then
      [0xEF, 0xBF, 0xBD] ++ utf8Encode (v :: rest)
    else utf8Bytes1 u ++ utf8Encode (v :: rest)

/-- Value of a base64 alphabet character, `none` for characters Node's
forgiving decoder skips (including `=` padding). -/
def b64Val (u : Nat) : Option Nat :=
  if 65 ≤ u && u ≤ 90 then some (u - 65)
  else if 97 ≤ u && u ≤ 122 then some (u - 71)
  else if 48 ≤ u && u ≤ 57 then some (u + 4)
  else if u = 43 then some 62
  else if u = 47 then some 63
  else none

/-- Reassemble bytes from base64 sextets (4 sextets → 3 bytes, with the
standard truncation for a trailing group of 2 or 3 sextets). -/
def b64Group : List Nat → List Nat
  | a :: b :: c :: d :: rest =>
    (a * 4 + b / 16) :: (b % 16 * 16 + c / 4) :: (c % 4 * 64 + d) :: b64Group rest
  | [a, b, c] => [a * 4 + b / 16, b % 16 * 16 + c / 4]
  | [a, b] => [a * 4 + b / 16]
  | _ => []

/-- `Buffer.from(s, "base64")` on well-formed input: non-alphabet
characters are skipped, then sextets are packed into bytes. -/
def base64Decode (s : JSStr) : List Nat := b64Group (s.filterMap b64Val)

/-- Base64 alphabet character for a sextet. -/
def b64Char (n : Nat) : Nat :=
  if n < 26 then 65 + n
  else if n < 52 then 97 + n - 26
  else if n < 62 then 48 + n - 52
  else if n = 62 then 43
  else 47

/-- `Buffer#toString("base64")`: standard base64 with `=` padding. -/
def base64Encode : List Nat → JSStr
  | x :: y :: z :: rest =>
    b64Char (x / 4) :: b64Char (x % 4 * 16 + y / 16) ::
      b64Char (y % 16 * 4 + z / 4) :: b64Char (z % 64) :: base64Encode rest
  | [x, y] => [b64Char (x / 4), b64Char (x % 4 * 16 + y / 16),
      b64Char (y % 16 * 4), 61]
  | [x] => [b64Char (x / 4), b64Char (x % 4 * 16), 61, 61]
  | [] => []

/-- `pat` is a prefix of `l` (the anchored test behind `indexOf`). -/
def startsWithL : List Nat → List Nat → Bool
  | [], _ => true
  | _ :: _, [] => false
  | p :: ps, x :: xs => p == x && startsWithL ps xs

/-- Scan for the first position at which `pat` starts, offset by `i`. -/
def indexOfLGo (pat : List Nat) : List Nat → Nat → Option Nat
  | [], i => if startsWithL pat [] then some i else none
  | x :: t, i =>
    if startsWithL pat (x :: t) then some i else indexOfLGo pat t (i + 1)

/-- `String#indexOf(pat)` (`none` for JavaScript's `-1`). -/
def indexOfL (pat l : List Nat) : Option Nat := indexOfLGo pat l 0

/-- `String#includes(pat)`. -/
def includesL (pat l : List Nat) : Bool := (indexOfL pat l).isSome

/-- `String#endsWith(pat)`. -/
def endsWithL (pat l : List Nat) : Bool :=
  pat.length ≤ l.length && l.drop (l.length - pat.length) == pat

/-- Repeatedly split at the first occurrence of `sep`; `fuel ≥ length + 1`
suffices since each found separator consumes at least one element. -/
def splitLGo (sep : List Nat) : Nat → List Nat → List (List Nat)
  | 0, l => [l]
  | f + 1, l =>
    match indexOfL sep l with
    | none => [l]
    | some i => l.take i :: splitLGo sep f (l.drop (i + sep.length))

/-- `String#split(sep)` for a non-empty string separator (the code only
splits on `"--" + boundary` and `"boundary="`, both non-empty). -/
def splitL (sep l : List Nat) : List (List Nat) := splitLGo sep (l.length + 1) l

/-- ASCII lowercasing of one UTF-16 code unit: the fragment of
`String#toLowerCase()` exercised by the `.xlsx` check (non-ASCII simple
case mappings are modelled as the identity). -/
def jsLowerUnit (u : Nat) : Nat := if 65 ≤ u && u ≤ 90 then u + 32 else u

/-- `String#toLowerCase()` restricted to ASCII mappings. -/
def jsToLowerCase (s : JSStr) : JSStr := s.map jsLowerUnit

/-! ## The exceljs workbook model

The spreadsheet library is a black box used only to toggle the per-sheet
print-layout attributes; a workbook is its sheets, each sheet its
`pageSetup` print-layout record plus untouched payload. -/

/-- The print-layout attributes of `worksheet.pageSetup`, with the
attributes the normalizer does not touch kept abstract. -/
structure PageSetup where
  fitToPage : Bool
  fitToHeight : Nat
  otherProps : List (String × String)
deriving DecidableEq

/-- One worksheet: its page setup plus opaque sheet contents. -/
structure Worksheet where
  pageSetup : PageSetup
  sheetData : List Nat
deriving DecidableEq

/-- A workbook is its list of worksheets (`workbook.eachSheet` order). -/
structure Workbook where
  sheets : List Worksheet
deriving DecidableEq

/-- The `eachSheet` callback body of `scaleExcelFile`:
`worksheet.pageSetup.fitToPage = true; worksheet.pageSetup.fitToHeight = 0`. -/
def scaleSheet (ws : Worksheet) : Worksheet :=
  { ws with pageSetup := { ws.pageSetup with fitToPage := true, fitToHeight := 0 } }

/-- The in-memory effect of `scaleExcelFile` on the parsed workbook:
every sheet gets `fitToPage := true` and `fitToHeight := 0`. -/
def scaleWorkbook (wb : Workbook) : Workbook :=
  { sheets := wb.sheets.map scaleSheet }

/-- `scaleExcelFile(filePath)`: read the file at `filePath`, parse it with
exceljs (`parseXlsx`, `none` models a parse exception), set the page-setup
attributes on every sheet, and serialize the workbook back to the same
path.  A missing file or unparsable document throws (`Except.error`). -/
def scaleExcelFile (parseXlsx : List Nat → Option Workbook)
    (serializeXlsx : Workbook → List Nat)
    (fs : String → Option (List Nat)) (filePath : String) :
    Except String (String → Option (List Nat)) :=
  match fs filePath with
  | none => .error "ENOENT"
  | some bytes =>
    match parseXlsx bytes with
    | none => .error "unparsable spreadsheet"
    | some workbook =>
      .ok fun p =>
        if p = filePath then some (serializeXlsx (scaleWorkbook workbook))
        else fs p

/-! ## HTTP surface -/

/-- The fields of an `APIGatewayProxyEvent` that the handler reads.  The
headers map is consulted only at the keys `"content-type"` and
`"Content-Type"`, so only those two entries are modelled. -/
structure APIGatewayProxyEvent where
  httpMethod : String
  contentTypeLower : Option JSStr
  contentTypeUpper : Option JSStr
  body : Option JSStr
  isBase64Encoded : Bool

/-- The `APIGatewayProxyResult` record the handler returns.  Responses that
do not set `isBase64Encoded` carry `none`. -/
structure APIGatewayProxyResult where
  statusCode : Nat
  headers : List (String × JSStr)
  body : JSStr
  isBase64Encoded : Option Bool
deriving DecidableEq

/-- Maximum file size allowed for uploads (18MB), `MAX_UPLOAD_FILE_SIZE_BYTES`. -/
def MAX_UPLOAD_FILE_SIZE_BYTES : Nat := 18 * 1000 * 1000

/-- `TEMP_DIRECTORY`. -/
def TEMP_DIRECTORY : String := "/tmp"

/-- `STARTING_FILE_PATH`. -/
def STARTING_FILE_PATH : String := TEMP_DIRECTORY ++ "/document.xlsx"

/-- `ENDING_FILE_PATH`. -/
def ENDING_FILE_PATH : String := TEMP_DIRECTORY ++ "/document.pdf"

/-- The command line passed to `execAsync`:
`` `${libreofficePath} --headless --convert-to pdf --outdir ${TEMP_DIRECTORY} ${STARTING_FILE_PATH}` ``. -/
def libreofficeCommand (libreofficePath : String) : String :=
  libreofficePath ++ " --headless --convert-to pdf --outdir " ++
    TEMP_DIRECTORY ++ " " ++ STARTING_FILE_PATH

/-- Fixed upper part of the HTML page produced by `generateMainPage`. -/
def mainPageHead : String :=
  "\n    <!DOCTYPE html>\n    <html lang=\"en\">\n      <head>\n        " ++
  "<meta charset=\"UTF-8\">\n        " ++
  "<meta name=\"viewport\" content=\"width=device-width, initial-scale=1.0\">\n        " ++
  "<title>Excel to PDF Converter</title>\n      </head>\n      <body>\n        " ++
  "<h1>Excel to PDF Converter</h1>\n        " ++
  "<p>Upload an Excel (.xlsx) file to convert it to PDF format.</p>\n        \n        " ++
  "<form action=\"/\" method=\"post\" enctype=\"multipart/form-data\">\n          " ++
  "<div class=\"form-group\">\n            " ++
  "<label for=\"file\">Select Excel File (.xlsx):</label>\n            " ++
  "<input type=\"file\" id=\"file\" name=\"uploaded_file\" accept=\".xlsx\" required>\n          " ++
  "</div>\n          <button type=\"submit\">Convert to PDF</button>\n        " ++
  "</form>\n        \n        "

/-- Fixed lower part of the HTML page produced by `generateMainPage`. -/
def mainPageTail : String := "\n      </body>\n    </html>\n  "

/-- `generateMainPage(error?)`: the upload form, with an error box when an
error message is supplied. -/
def generateMainPage (error : Option String) : String :=
  mainPageHead ++
    (match error with
     | some e => "<div class=\"error\"><strong>Error: " ++ e ++ "</strong></div>"
     | none => "") ++
  mainPageTail

/-- An HTML response: `statusCode` plus a `text/html` rendering of
`generateMainPage`. -/
def htmlResponse (status : Nat) (error : Option String) : APIGatewayProxyResult :=
  { statusCode := status
    headers := [("Content-Type", str "text/html")]
    body := str (generateMainPage error)
    isBase64Encoded := none }

/-- Execution-trace marks for the pipeline stages, in source order:
`materializeBody` is the parser decoding the whole request body
(`Buffer.from` + `toString`, lines 177–182); the remaining marks are the
size check, the extension check, the staging `writeFile`, the
`scaleExcelFile` call, the `execAsync` subprocess call (with the exact
command string), and the `readFile` of the converted PDF. -/
inductive StageEvent
  | materializeBody
  | sizeCheck
  | formatCheck
  | stageWrite
  | normalize
  | convert (cmd : String)
  | readResult
deriving DecidableEq

/-- `event.headers["content-type"] || event.headers["Content-Type"]`
(an empty string is falsy, so it falls through to the capitalised key). -/
def eventContentType (e : APIGatewayProxyEvent) : Option JSStr :=
  match e.contentTypeLower with
  | some s => if s.length = 0 then e.contentTypeUpper else some s
  | none => e.contentTypeUpper

/-- The bytes the parser works on: `Buffer.from(body, "base64")` when the
event is base64-encoded, otherwise `Buffer.from(body)` (UTF-8).  These are
exactly the bytes of the multipart body the client sent. -/
def bodyBufferOf (isB64 : Bool) (body : JSStr) : List Nat :=
  if isB64 then base64Decode body else utf8Encode body

/-- `'name="uploaded_file"'`, the marker of the uploaded-file part. -/
def nameNeedle : JSStr := str "name=\"uploaded_file\""

/-- `"filename=\""`, the opening of the filename attribute. -/
def filenameOpen : JSStr := str "filename=\""

/-- `"\r\n\r\n"`, the header/content separator inside a part. -/
def crlfcrlf : JSStr := [13, 10, 13, 10]

/-- The regex test `/filename="([^"]+)"/` anchored at the head of `l`:
the literal `filename="`, then a non-empty greedy run of non-quote units
that must be closed by a quote. -/
def filenameMatchAt (l : JSStr) : Option JSStr :=
  if startsWithL filenameOpen l then
    let rest := l.drop filenameOpen.length
    let cap := rest.takeWhile (fun u => u ≠ 34)
    if cap.length ≠ 0 && cap.length < rest.length then some cap else none
  else none

/-- `part.match(/filename="([^"]+)"/)`: the capture at the first position
where the whole pattern matches (the engine resumes scanning after an
open marker whose capture cannot be closed). -/
def filenameMatch : JSStr → Option JSStr
  | [] => none
  | u :: t =>
    match filenameMatchAt (u :: t) with
    | some cap => some cap
    | none => filenameMatch t

/-- The `for (const part of parts)` loop of `parseMultipartFormData`:
the first part containing `name="uploaded_file"` and a blank line yields
the latin1-encoded content after the blank line, with the filename capture
defaulting to `document.xlsx`. -/
def extractFromParts : List JSStr → Option (List Nat) × JSStr
  | [] => (none, [])
  | part :: rest =>
    if includesL nameNeedle part then
      let filename := (filenameMatch part).getD (str "document.xlsx")
      match indexOfL crlfcrlf part with
      | none => extractFromParts rest
      | some contentStart =>
        (some (latin1Encode (part.drop (contentStart + 4))), filename)
    else extractFromParts rest

/-- `parseMultipartFormData(event)`: guard on a truthy body and a
`multipart/form-data` content type, extract the boundary, decode the whole
body (`materializeBody`), split on `--boundary` and scan the parts.  The
function never throws; all failures yield `(null, "")`. -/
def parseMultipartFormData (e : APIGatewayProxyEvent) :
    (Option (List Nat) × JSStr) × List StageEvent :=
  match e.body, eventContentType e with
  | none, _ => ((none, []), [])
  | some _, none => ((none, []), [])
  | some body, some contentType =>
    if body.length = 0 then ((none, []), [])
    else if contentType.length = 0 then ((none, []), [])
    else if ¬ includesL (str "multipart/form-data") contentType then ((none, []), [])
    else
      match (splitL (str "boundary=") contentType).get? 1 with
      | none => ((none, []), [])
      | some boundary =>
        if boundary.length = 0 then ((none, []), [])
        else
          let bodyBuffer := bodyBufferOf e.isBase64Encoded body
          let parts := splitL (str "--" ++ boundary) (utf8Decode bodyBuffer)
          (extractFromParts parts, [.materializeBody])

/-- Node `path.parse(f).name` for a POSIX path: the final path segment
with its extension removed; a leading-dot base or a base of `".."` has no
extension. -/
def pathParseName (f : JSStr) : JSStr :=
  let base := ((splitL [47] f).getLast?).getD f
  match (base.reverse.findIdx? (fun u => u = 46)).map
      (fun j => base.length - 1 - j) with
  | none => base
  | some 0 => base
  | some i => if base = [46, 46] then base else base.take i

/-- `returnPdfFile(filePath, originalFilename)` given the bytes found at
`filePath` (`none` models the `readFile` throw, caught locally into a 500
page).  On success: a base64 PDF body with `Content-Length` from
`stat` (the byte size of the same file) and a `Content-Disposition`
filename forced to `.pdf`. -/
def returnPdfFile (pdfFile : Option (List Nat)) (originalFilename : JSStr) :
    APIGatewayProxyResult :=
  match pdfFile with
  | none => htmlResponse 500 (some "Failed to generate PDF file.")
  | some pdfBuffer =>
    let pdfFilename : JSStr := pathParseName originalFilename ++ str ".pdf"
    { statusCode := 200
      headers := [("Content-Type", str "application/pdf"),
                  ("Content-Length", str (toString pdfBuffer.length)),
                  ("Content-Disposition",
                    str "inline; filename=\"" ++ pdfFilename ++ str "\"")]
      body := base64Encode pdfBuffer
      isBase64Encoded := some true }

/-- Outcomes of the request's external effects.  Thrown JavaScript errors
are represented by their detail string. -/
structure PipelineEnv where
  /-- `LIBREOFFICE_PATH` (validated at startup). -/
  libreofficePath : String
  /-- Contents of `/tmp` when the request starts. -/
  tmpFs : String → Option (List Nat)
  /-- Outcome of the staging `writeFile(STARTING_FILE_PATH, file)`. -/
  writeOutcome : Except String Unit
  /-- `workbook.xlsx.read`: `none` models a parse exception. -/
  parseXlsx : List Nat → Option Workbook
  /-- `workbook.xlsx.write` serialization. -/
  serializeXlsx : Workbook → List Nat
  /-- The LibreOffice subprocess on the staged source bytes:
  `error` models a rejected `execAsync` (non-zero exit / crash);
  `ok v` an exit-0 run that wrote `v` at `ENDING_FILE_PATH`
  (`ok none`: exit 0 but no output file produced). -/
  convert : List Nat → Except String (Option (List Nat))
  /-- Models an exception thrown inside the `handler` try-block before the
  routing runs (the outer catch, lines 59–68). -/
  unexpectedFault : Option String

/-- Lines 81–151 of `handleFileUpload`, after the parse result is
destructured: null-file check, size ceiling, extension gate, staging
write, normalization, conversion, and the PDF response; every stage throw
is caught into the generic `Failed to process file.` page. -/
def handleParsedUpload (env : PipelineEnv) (file : Option (List Nat))
    (filename : JSStr) : APIGatewayProxyResult × List StageEvent :=
  match file with
  | none =>
    (htmlResponse 400 (some "No file was uploaded or file is invalid."), [])
  | some file =>
    if MAX_UPLOAD_FILE_SIZE_BYTES < file.length then
      (htmlResponse 413 (some ("File size exceeds " ++
        toString (MAX_UPLOAD_FILE_SIZE_BYTES / 1000 / 1000) ++ "MB limit.")),
       [.sizeCheck])
    else if ¬ endsWithL (str ".xlsx") (jsToLowerCase filename) then
      (htmlResponse 400
        (some "Invalid file format. Please upload an Excel (.xlsx) file."),
       [.sizeCheck, .formatCheck])
    else
      match env.writeOutcome with
      | .error _ =>
        (htmlResponse 500 (some "Failed to process file."),
         [.sizeCheck, .formatCheck, .stageWrite])
      | .ok _ =>
        let fs1 : String → Option (List Nat) := fun p =>
          if p = STARTING_FILE_PATH then some file else env.tmpFs p
        match scaleExcelFile env.parseXlsx env.serializeXlsx fs1
            STARTING_FILE_PATH with
        | .error _ =>
          (htmlResponse 500 (some "Failed to process file."),
           [.sizeCheck, .formatCheck, .stageWrite, .normalize])
        | .ok fs2 =>
          let cmd := libreofficeCommand env.libreofficePath
          match env.convert ((fs2 STARTING_FILE_PATH).getD []) with
          | .error _ =>
            (htmlResponse 500 (some "Failed to process file."),
             [.sizeCheck, .formatCheck, .stageWrite, .normalize, .convert cmd])
          | .ok output =>
            let fs3 : String → Option (List Nat) := fun p =>
              if p = ENDING_FILE_PATH then
                match output with
                | some pdf => some pdf
                | none => fs2 p
              else fs2 p
            (returnPdfFile (fs3 ENDING_FILE_PATH) filename,
             [.sizeCheck, .formatCheck, .stageWrite, .normalize, .convert cmd,
              .readResult])

/-- `handleFileUpload(event)`: parse the multipart body, then run the rest
of the pipeline on the destructured result. -/
def handleFileUpload (env : PipelineEnv) (e : APIGatewayProxyEvent) :
    APIGatewayProxyResult × List StageEvent :=
  let parsed := parseMultipartFormData e
  let rest := handleParsedUpload env parsed.1.1 parsed.1.2
  (rest.1, parsed.2 ++ rest.2)

/-- The routing body of the `handler` try-block: GET → form page,
POST → `handleFileUpload`, anything else → 405 page. -/
def handlerRoute (env : PipelineEnv) (e : APIGatewayProxyEvent) :
    APIGatewayProxyResult × List StageEvent :=
  if e.httpMethod = "GET" then (htmlResponse 200 none, [])
  else if e.httpMethod = "POST" then handleFileUpload env e
  else (htmlResponse 405 (some "Method not allowed"), [])

/-- The exported `handler`: the whole body runs inside a try/catch whose
catch converts any thrown error into a 500 `Internal server error` page. -/
def handler (env : PipelineEnv) (e : APIGatewayProxyEvent) :
    APIGatewayProxyResult × List StageEvent :=
  match env.unexpectedFault with
  | some _ => (htmlResponse 500 (some "Internal server error"), [])
  | none => handlerRoute env e

/-! ## Concrete witness data -/

/-- A worksheet whose print-layout attributes are not yet normalized. -/
def wsW : Worksheet :=
  { pageSetup := { fitToPage := false, fitToHeight := 5, otherProps := [("orientation", "landscape")] }
    sheetData := [1, 2] }

/-- A two-sheet workbook used by the normalizer witnesses. -/
def wbW : Workbook :=
  { sheets := [wsW, { pageSetup := { fitToPage := true, fitToHeight := 3, otherProps := [] }, sheetData := [] }] }

/-- A toy exceljs parser for witnesses: every byte string parses to `wbW`,
and the serialized form of any scaled workbook parses back to it. -/
def parseXlsxW : List Nat → Option Workbook := fun _ => some wbW

/-- A toy exceljs serializer for witnesses. -/
def serializeXlsxW : Workbook → List Nat := fun _ => [9, 9]

/-- A parser that recognizes only the serialized scaled `wbW` (used for the
idempotence witness, where the second run re-parses the first run's
output). -/
def parseXlsxW2 : List Nat → Option Workbook := fun _ => some (scaleWorkbook wbW)

/-- A `/tmp` that already holds a staged document. -/
def fsW : String → Option (List Nat) := fun p =>
  if p = STARTING_FILE_PATH then some [3, 4, 5] else none

/-- A content-type header with boundary `X`. -/
def ctX : JSStr := str "multipart/form-data; boundary=X"

/-- A multipart body whose file part contains the single code unit U+0080:
on the wire (UTF-8) the client's file content is the two bytes
`C2 80`. -/
def bodyC2 : JSStr :=
  str "--X\r\nContent-Disposition: form-data; name=\"uploaded_file\"; filename=\"r.xlsx\"\r\n\r\n" ++
    [128] ++ str "\r\n--X--"

/-- The upload event carrying `bodyC2`. -/
def evC2 : APIGatewayProxyEvent :=
  { httpMethod := "POST", contentTypeLower := some ctX, contentTypeUpper := none,
    body := some bodyC2, isBase64Encoded := false }

/-- A multipart body whose part declares `Content-Type: text/plain` — a
MIME type that is not the spreadsheet content type — while the filename
ends in `.xlsx`. -/
def bodyC1 : JSStr :=
  str "--X\r\nContent-Disposition: form-data; name=\"uploaded_file\"; filename=\"report.xlsx\"\r\nContent-Type: text/plain\r\n\r\nhello\r\n--X--"

/-- The upload event carrying `bodyC1`. -/
def evC1 : APIGatewayProxyEvent :=
  { httpMethod := "POST", contentTypeLower := some ctX, contentTypeUpper := none,
    body := some bodyC1, isBase64Encoded := false }

/-- An environment in which every external effect succeeds: the staging
write succeeds, exceljs parses to `wbW`, and LibreOffice exits 0 leaving
the bytes `%PDF` at the output path. -/
def envW : PipelineEnv :=
  { libreofficePath := "soffice"
    tmpFs := fun _ => none
    writeOutcome := .ok ()
    parseXlsx := parseXlsxW
    serializeXlsx := serializeXlsxW
    convert := fun _ => .ok (some [37, 80, 68, 70])
    unexpectedFault := none }

/-- `envW` with a failing staging write. -/
def envW7 : PipelineEnv := { envW with writeOutcome := .error "EACCES: permission denied" }

/-- `envW` with an exception thrown inside the handler try-block. -/
def envWF : PipelineEnv := { envW with unexpectedFault := some "out of memory" }

/-- A request with an unsupported HTTP method. -/
def evDelete : APIGatewayProxyEvent :=
  { httpMethod := "DELETE", contentTypeLower := none, contentTypeUpper := none,
    body := none, isBase64Encoded := false }

/-- The body decode (`materializeBody`) happens at a strictly earlier
trace position than the size check. -/
def materializedBeforeSizeCheck (tr : List StageEvent) : Prop :=
  ∃ i j, i < j ∧ tr.get? i = some StageEvent.materializeBody ∧
    tr.get? j = some StageEvent.sizeCheck

/-- Claim C9 as stated: for every upload rejected through the oversize
error path (HTTP 413), the rejection occurs without fully buffering the
body — the size ceiling is enforced before the request body is
materialized, i.e. the trace never decodes the whole body before the size
check. -/
def claimC9Statement : Prop :=
  ∀ (env : PipelineEnv) (e : APIGatewayProxyEvent),
    (handler env e).1.statusCode = 413 →
      ¬ materializedBeforeSizeCheck (handler env e).2

/-- A content-type header with boundary `B`. -/
def ctB : JSStr := str "multipart/form-data; boundary=B"

/-- The fixed 24-unit header of the oversize upload's single part. -/
def headerBig : JSStr := str "name=\"uploaded_file\"\r\n\r\n"

/-- An 18,000,025-unit multipart body whose file content is 18,000,001
copies of `a` — one byte over the configured ceiling. -/
def bodyBig : JSStr := headerBig ++ List.replicate 18000001 97

/-- The oversize upload event. -/
def evBig : APIGatewayProxyEvent :=
  { httpMethod := "POST", contentTypeLower := some ctB, contentTypeUpper := none,
    body := some bodyBig, isBase64Encoded := false }

/-! ## Theorems -/

/-- The sheets of a scaled workbook all carry `fitToPage = true` and
`fitToHeight = 0`. -/
theorem scaleWorkbook_flags (wb : Workbook) :
    ∀ ws ∈ (scaleWorkbook wb).sheets,
      ws.pageSetup.fitToPage = true ∧ ws.pageSetup.fitToHeight = 0 := by
  intro ws hws
  rcases List.mem_map.mp hws with ⟨ws0, _, rfl⟩
  exact ⟨rfl, rfl⟩

/-- Scaling one sheet twice is the same as scaling it once. -/
theorem scaleSheet_idem (ws : Worksheet) : scaleSheet (scaleSheet ws) = scaleSheet ws := rfl

/-- Scaling a workbook twice is the same as scaling it once. -/
theorem scaleWorkbook_idem (wb : Workbook) :
    scaleWorkbook (scaleWorkbook wb) = scaleWorkbook wb := by
  unfold scaleWorkbook
  simp [List.map_map, Function.comp_def, scaleSheet_idem]

/-- C5: for every parsable spreadsheet file, `scaleExcelFile` succeeds,
every worksheet of the resulting document has `fitToPage = true` and
`fitToHeight = 0`, and the serialized result overwrites the file at the
same path, leaving every other path untouched. -/
theorem claim_C5 (parseXlsx : List Nat → Option Workbook)
    (serializeXlsx : Workbook → List Nat)
    (fs : String → Option (List Nat)) (filePath : String)
    (bytes : List Nat) (wb : Workbook)
    (hread : fs filePath = some bytes) (hparse : parseXlsx bytes = some wb) :
    ∃ fs', scaleExcelFile parseXlsx serializeXlsx fs filePath = .ok fs' ∧
      fs' filePath = some (serializeXlsx (scaleWorkbook wb)) ∧
      (∀ ws ∈ (scaleWorkbook wb).sheets,
        ws.pageSetup.fitToPage = true ∧ ws.pageSetup.fitToHeight = 0) ∧
      (∀ q, q ≠ filePath → fs' q = fs q) := by
  refine ⟨fun p => if p = filePath then some (serializeXlsx (scaleWorkbook wb)) else fs p,
    ?_, ?_, scaleWorkbook_flags wb, ?_⟩
  · simp [scaleExcelFile, hread, hparse]
  · simp
  · intro q hq
    simp [hq]

/-- C5 witness: a concrete store, parser and serializer at which every
hypothesis of `claim_C5` holds and the conclusion evaluates. -/
theorem claim_C5_witness :
    fsW STARTING_FILE_PATH = some [3, 4, 5] ∧ parseXlsxW [3, 4, 5] = some wbW ∧
    ∃ fs', scaleExcelFile parseXlsxW serializeXlsxW fsW STARTING_FILE_PATH = .ok fs' ∧
      fs' STARTING_FILE_PATH = some (serializeXlsxW (scaleWorkbook wbW)) ∧
      (∀ ws ∈ (scaleWorkbook wbW).sheets,
        ws.pageSetup.fitToPage = true ∧ ws.pageSetup.fitToHeight = 0) ∧
      (∀ q, q ≠ STARTING_FILE_PATH → fs' q = fsW q) :=
  ⟨by decide, rfl,
   claim_C5 parseXlsxW serializeXlsxW fsW STARTING_FILE_PATH [3, 4, 5] wbW (by decide) rfl⟩

/-- C6: the Document Normalizer is idempotent.  If the serialized
normalized workbook re-parses to itself (exceljs round-trip at that one
document), running `scaleExcelFile` a second time rewrites the file with
identical contents, and the print-layout settings after two runs are the
same (`fitToPage = true`, `fitToHeight = 0`) as after one. -/
theorem claim_C6 (parseXlsx : List Nat → Option Workbook)
    (serializeXlsx : Workbook → List Nat)
    (fs : String → Option (List Nat)) (filePath : String)
    (bytes : List Nat) (wb : Workbook)
    (hread : fs filePath = some bytes) (hparse : parseXlsx bytes = some wb)
    (hroundtrip : parseXlsx (serializeXlsx (scaleWorkbook wb)) = some (scaleWorkbook wb)) :
    ∃ fs1, scaleExcelFile parseXlsx serializeXlsx fs filePath = .ok fs1 ∧
    ∃ fs2, scaleExcelFile parseXlsx serializeXlsx fs1 filePath = .ok fs2 ∧
      fs2 filePath = fs1 filePath ∧
      fs1 filePath = some (serializeXlsx (scaleWorkbook wb)) ∧
      (∀ ws ∈ (scaleWorkbook wb).sheets,
        ws.pageSetup.fitToPage = true ∧ ws.pageSetup.fitToHeight = 0) := by
  obtain ⟨fs1, h1, h1p, _, _⟩ :=
    claim_C5 parseXlsx serializeXlsx fs filePath bytes wb hread hparse
  refine ⟨fs1, h1, ?_⟩
  obtain ⟨fs2, h2, h2p, _, _⟩ :=
    claim_C5 parseXlsx serializeXlsx fs1 filePath
      (serializeXlsx (scaleWorkbook wb)) (scaleWorkbook wb) h1p hroundtrip
  refine ⟨fs2, h2, ?_, h1p, scaleWorkbook_flags wb⟩
  rw [h2p, h1p, scaleWorkbook_idem]

/-- C6 witness: the round-trip hypothesis and both runs evaluated at a
concrete store, parser and serializer. -/
theorem claim_C6_witness :
    fsW STARTING_FILE_PATH = some [3, 4, 5] ∧
    parseXlsxW2 [3, 4, 5] = some (scaleWorkbook wbW) ∧
    parseXlsxW2 (serializeXlsxW (scaleWorkbook (scaleWorkbook wbW))) =
      some (scaleWorkbook (scaleWorkbook wbW)) ∧
    ∃ fs1, scaleExcelFile parseXlsxW2 serializeXlsxW fsW STARTING_FILE_PATH = .ok fs1 ∧
    ∃ fs2, scaleExcelFile parseXlsxW2 serializeXlsxW fs1 STARTING_FILE_PATH = .ok fs2 ∧
      fs2 STARTING_FILE_PATH = fs1 STARTING_FILE_PATH ∧
      fs1 STARTING_FILE_PATH = some (serializeXlsxW (scaleWorkbook (scaleWorkbook wbW))) ∧
      (∀ ws ∈ (scaleWorkbook (scaleWorkbook wbW)).sheets,
        ws.pageSetup.fitToPage = true ∧ ws.pageSetup.fitToHeight = 0) :=
  ⟨by decide, rfl, rfl,
   claim_C6 parseXlsxW2 serializeXlsxW fsW STARTING_FILE_PATH [3, 4, 5]
     (scaleWorkbook wbW) (by decide) rfl rfl⟩

/-- C2: encode-then-parse is not the identity on file bytes.  For the
upload `evC2` the client's multipart body (the byte sequence
`bodyBufferOf` decodes, shown split around the file region) carries the
file content `C2 80`, but `parseMultipartFormData` — which decodes the
whole body to a string and re-encodes the extracted part with latin1 —
returns the buffer `[128, 13, 10]` (the naive parser also keeps the
part's trailing CRLF), which differs from the bytes the client placed. -/
theorem claim_C2 :
    bodyBufferOf evC2.isBase64Encoded bodyC2 =
      (str "--X\r\nContent-Disposition: form-data; name=\"uploaded_file\"; filename=\"r.xlsx\"\r\n\r\n" ++
        [194, 128] ++ str "\r\n--X--") ∧
    (parseMultipartFormData evC2).1 = (some [128, 13, 10], str "r.xlsx") ∧
    ([128, 13, 10] : List Nat) ≠ [194, 128] ∧
    ([128, 13, 10] : List Nat) ≠ [194, 128, 13, 10] := by
  refine ⟨by decide, by decide, by decide, by decide⟩

/-- C3: a parsed file of exactly `MAX_UPLOAD_FILE_SIZE_BYTES` bytes passes
the size check (the pipeline goes on to the format check), while a file
one byte larger is rejected with the 413 oversize page, with the trace
stopping at the size check — normalization and conversion are not
invoked. -/
theorem claim_C3 (env : PipelineEnv) (fname : JSStr) (fileMax fileOver : List Nat)
    (hmax : fileMax.length = MAX_UPLOAD_FILE_SIZE_BYTES)
    (hover : fileOver.length = MAX_UPLOAD_FILE_SIZE_BYTES + 1) :
    StageEvent.formatCheck ∈ (handleParsedUpload env (some fileMax) fname).2 ∧
    (handleParsedUpload env (some fileOver) fname).1 =
      htmlResponse 413 (some "File size exceeds 18MB limit.") ∧
    (handleParsedUpload env (some fileOver) fname).2 = [StageEvent.sizeCheck] ∧
    StageEvent.normalize ∉ (handleParsedUpload env (some fileOver) fname).2 ∧
    (∀ c, StageEvent.convert c ∉ (handleParsedUpload env (some fileOver) fname).2) := by
  have hnotlt : ¬ MAX_UPLOAD_FILE_SIZE_BYTES < fileMax.length := by
    rw [hmax]; exact Nat.lt_irrefl _
  have hlt : MAX_UPLOAD_FILE_SIZE_BYTES < fileOver.length := by
    rw [hover]; exact Nat.lt_succ_self _
  refine ⟨?_, ?_, ?_, ?_, ?_⟩
  · unfold handleParsedUpload
    dsimp only
    rw [if_neg hnotlt]
    split
    · simp
    · split
      · simp
      · split
        · simp
        · split <;> simp
  · unfold handleParsedUpload
    dsimp only
    rw [if_pos hlt]
    decide
  · unfold handleParsedUpload
    dsimp only
    rw [if_pos hlt]
  · unfold handleParsedUpload
    dsimp only
    rw [if_pos hlt]
    simp
  · intro c
    unfold handleParsedUpload
    dsimp only
    rw [if_pos hlt]
    simp

/-- C3 witness: concrete files of exactly 18,000,000 and 18,000,001 zero
bytes run through the pipeline in a fully successful environment. -/
theorem claim_C3_witness :
    (List.replicate MAX_UPLOAD_FILE_SIZE_BYTES 0).length = MAX_UPLOAD_FILE_SIZE_BYTES ∧
    (List.replicate (MAX_UPLOAD_FILE_SIZE_BYTES + 1) 0).length = MAX_UPLOAD_FILE_SIZE_BYTES + 1 ∧
    (StageEvent.formatCheck ∈
      (handleParsedUpload envW (some (List.replicate MAX_UPLOAD_FILE_SIZE_BYTES 0)) (str "Q1.xlsx")).2 ∧
     (handleParsedUpload envW (some (List.replicate (MAX_UPLOAD_FILE_SIZE_BYTES + 1) 0)) (str "Q1.xlsx")).1 =
       htmlResponse 413 (some "File size exceeds 18MB limit.") ∧
     (handleParsedUpload envW (some (List.replicate (MAX_UPLOAD_FILE_SIZE_BYTES + 1) 0)) (str "Q1.xlsx")).2 =
       [StageEvent.sizeCheck] ∧
     StageEvent.normalize ∉
       (handleParsedUpload envW (some (List.replicate (MAX_UPLOAD_FILE_SIZE_BYTES + 1) 0)) (str "Q1.xlsx")).2 ∧
     (∀ c, StageEvent.convert c ∉
       (handleParsedUpload envW (some (List.replicate (MAX_UPLOAD_FILE_SIZE_BYTES + 1) 0)) (str "Q1.xlsx")).2)) :=
  ⟨List.length_replicate _ _, List.length_replicate _ _,
   claim_C3 envW (str "Q1.xlsx") _ _ (List.length_replicate _ _) (List.length_replicate _ _)⟩

/-- C1 counterexample: an upload whose part declares the MIME type
`text/plain` — not the spreadsheet content type — but is named
`report.xlsx`.  The claim says such an upload is rejected with an error
page without invoking normalization or conversion; the code never reads
the declared MIME type, so the upload passes validation, normalization
and conversion run, and a 200 PDF response is returned. -/
theorem claim_C1_counterexample :
    includesL (str "Content-Type: text/plain") bodyC1 = true ∧
    (parseMultipartFormData evC1).1.2 = str "report.xlsx" ∧
    StageEvent.normalize ∈ (handleFileUpload envW evC1).2 ∧
    StageEvent.convert (libreofficeCommand "soffice") ∈ (handleFileUpload envW evC1).2 ∧
    (handleFileUpload envW evC1).1.statusCode = 200 ∧
    (handleFileUpload envW evC1).1.isBase64Encoded = some true := by
  refine ⟨by decide, by decide, by decide, by decide, by decide, by decide⟩

/-- C1 (amended): validation is decided by the filename alone — the
declared MIME type is never consulted.  A file whose lowercased name ends
in `.xlsx` passes the format gate (the pipeline reaches the staging
write); any other name is rejected with the 400 invalid-format page,
without invoking normalization or conversion. -/
theorem claim_C1_amended (env : PipelineEnv) (file : List Nat) (good bad : JSStr)
    (hsize : file.length ≤ MAX_UPLOAD_FILE_SIZE_BYTES)
    (hgood : endsWithL (str ".xlsx") (jsToLowerCase good) = true)
    (hbad : endsWithL (str ".xlsx") (jsToLowerCase bad) = false) :
    StageEvent.stageWrite ∈ (handleParsedUpload env (some file) good).2 ∧
    (handleParsedUpload env (some file) bad).1 =
      htmlResponse 400 (some "Invalid file format. Please upload an Excel (.xlsx) file.") ∧
    (handleParsedUpload env (some file) bad).2 = [StageEvent.sizeCheck, StageEvent.formatCheck] ∧
    StageEvent.normalize ∉ (handleParsedUpload env (some file) bad).2 ∧
    (∀ c, StageEvent.convert c ∉ (handleParsedUpload env (some file) bad).2) := by
  have hnotlt : ¬ MAX_UPLOAD_FILE_SIZE_BYTES < file.length := Nat.not_lt.mpr hsize
  refine ⟨?_, ?_, ?_, ?_, ?_⟩
  · unfold handleParsedUpload
    dsimp only
    rw [if_neg hnotlt, if_neg (by rw [hgood]; simp)]
    split
    · simp
    · split
      · simp
      · split <;> simp
  · unfold handleParsedUpload
    dsimp only
    rw [if_neg hnotlt, if_pos (by rw [hbad]; simp)]
  · unfold handleParsedUpload
    dsimp only
    rw [if_neg hnotlt, if_pos (by rw [hbad]; simp)]
  · unfold handleParsedUpload
    dsimp only
    rw [if_neg hnotlt, if_pos (by rw [hbad]; simp)]
    simp
  · intro c
    unfold handleParsedUpload
    dsimp only
    rw [if_neg hnotlt, if_pos (by rw [hbad]; simp)]
    simp

/-- C1 amended witness: `REPORT.Xlsx` (accepted case-insensitively,
whatever its MIME type) versus `report.xls` (rejected). -/
theorem claim_C1_amended_witness :
    ([1, 2, 3] : List Nat).length ≤ MAX_UPLOAD_FILE_SIZE_BYTES ∧
    endsWithL (str ".xlsx") (jsToLowerCase (str "REPORT.Xlsx")) = true ∧
    endsWithL (str ".xlsx") (jsToLowerCase (str "report.xls")) = false ∧
    (StageEvent.stageWrite ∈ (handleParsedUpload envW (some [1, 2, 3]) (str "REPORT.Xlsx")).2 ∧
     (handleParsedUpload envW (some [1, 2, 3]) (str "report.xls")).1 =
       htmlResponse 400 (some "Invalid file format. Please upload an Excel (.xlsx) file.") ∧
     (handleParsedUpload envW (some [1, 2, 3]) (str "report.xls")).2 =
       [StageEvent.sizeCheck, StageEvent.formatCheck] ∧
     StageEvent.normalize ∉ (handleParsedUpload envW (some [1, 2, 3]) (str "report.xls")).2 ∧
     (∀ c, StageEvent.convert c ∉ (handleParsedUpload envW (some [1, 2, 3]) (str "report.xls")).2)) :=
  ⟨by decide, by decide, by decide,
   claim_C1_amended envW [1, 2, 3] (str "REPORT.Xlsx") (str "report.xls")
     (by decide) (by decide) (by decide)⟩

/-- C4 counterexample: the subprocess command contains none of the no-GUI,
no-lock-file-check or no-splash-screen flags the claim lists as part of
the argument set; it is exactly
`<engine-path> --headless --convert-to pdf --outdir /tmp /tmp/document.xlsx`. -/
theorem claim_C4_counterexample :
    libreofficeCommand "soffice" =
      "soffice --headless --convert-to pdf --outdir /tmp /tmp/document.xlsx" ∧
    includesL (str "--invisible") (str (libreofficeCommand "soffice")) = false ∧
    includesL (str "--nodefault") (str (libreofficeCommand "soffice")) = false ∧
    includesL (str "--nolockcheck") (str (libreofficeCommand "soffice")) = false ∧
    includesL (str "--nologo") (str (libreofficeCommand "soffice")) = false ∧
    includesL (str "--norestore") (str (libreofficeCommand "soffice")) = false := by
  refine ⟨rfl, by decide, by decide, by decide, by decide, by decide⟩

/-- C4 (amended): every conversion-stage invocation in any trace uses
exactly the fixed command
`<engine-path> --headless --convert-to pdf --outdir /tmp /tmp/document.xlsx`
(no GUI/lock-check/splash flags are passed — `--headless` alone suppresses
the GUI), and the converted file is read only after the subprocess stage:
a trace that reads the result is exactly the successful stage sequence,
with the conversion stage immediately before the read. -/
theorem claim_C4_amended (env env' : PipelineEnv) (file file' : Option (List Nat))
    (fname fname' : JSStr) (cmd : String)
    (hconv : StageEvent.convert cmd ∈ (handleParsedUpload env file fname).2)
    (hread : StageEvent.readResult ∈ (handleParsedUpload env' file' fname').2) :
    cmd = libreofficeCommand env.libreofficePath ∧
    (handleParsedUpload env' file' fname').2 =
      [StageEvent.sizeCheck, StageEvent.formatCheck, StageEvent.stageWrite,
       StageEvent.normalize, StageEvent.convert (libreofficeCommand env'.libreofficePath),
       StageEvent.readResult] := by
  constructor
  · revert hconv
    unfold handleParsedUpload
    rcases file with _ | f
    · intro h; simp at h
    · dsimp only
      split
      · intro h; simp at h
      · split
        · intro h; simp at h
        · split
          · intro h; simp at h
          · split
            · intro h; simp at h
            · split <;> { intro h; simp at h; exact h }
  · revert hread
    unfold handleParsedUpload
    rcases file' with _ | f'
    · intro h; simp at h
    · dsimp only
      split
      · intro h; simp at h
      · split
        · intro h; simp at h
        · split
          · intro h; simp at h
          · split
            · intro h; simp at h
            · split
              · intro h; simp at h
              · intro h; rfl

/-- C4 amended witness: a successful run of the pipeline in `envW`. -/
theorem claim_C4_amended_witness :
    StageEvent.convert (libreofficeCommand "soffice") ∈
      (handleParsedUpload envW (some [1]) (str "a.xlsx")).2 ∧
    StageEvent.readResult ∈ (handleParsedUpload envW (some [1]) (str "a.xlsx")).2 ∧
    (libreofficeCommand "soffice" = libreofficeCommand envW.libreofficePath ∧
     (handleParsedUpload envW (some [1]) (str "a.xlsx")).2 =
       [StageEvent.sizeCheck, StageEvent.formatCheck, StageEvent.stageWrite,
        StageEvent.normalize, StageEvent.convert (libreofficeCommand envW.libreofficePath),
        StageEvent.readResult]) :=
  ⟨by decide, by decide,
   claim_C4_amended envW envW (some [1]) (some [1]) (str "a.xlsx") (str "a.xlsx")
     (libreofficeCommand "soffice") (by decide) (by decide)⟩

/-- C7: every run of the upload pipeline that does not end in the 200 PDF
response yields one of the five fixed generic HTML error pages — a closed
message list independent of the thrown error's detail string, so no
internals leak — the trace never repeats a stage (no retries), and no PDF
body is returned (`isBase64Encoded` is unset on every error page, which
`htmlResponse` forces).  This covers a null parse result, the staging
write, normalization, conversion, and the result read each throwing:
`handleParsedUpload` maps every such failure to an `htmlResponse`. -/
theorem claim_C7 (env : PipelineEnv) (file : Option (List Nat)) (filename : JSStr)
    (hfail : (handleParsedUpload env file filename).1.statusCode ≠ 200) :
    (∃ s m, (handleParsedUpload env file filename).1 = htmlResponse s (some m) ∧
      m ∈ ["No file was uploaded or file is invalid.",
           "File size exceeds 18MB limit.",
           "Invalid file format. Please upload an Excel (.xlsx) file.",
           "Failed to process file.",
           "Failed to generate PDF file."]) ∧
    (handleParsedUpload env file filename).1.isBase64Encoded ≠ some true ∧
    (handleParsedUpload env file filename).2.Nodup := by
  revert hfail
  unfold handleParsedUpload
  rcases file with _ | f
  · dsimp only
    intro _
    exact ⟨⟨400, _, rfl, by simp⟩, by simp [htmlResponse], by simp⟩
  · dsimp only
    split
    · intro _
      exact ⟨⟨413, "File size exceeds 18MB limit.", by decide, by simp⟩,
        by simp [htmlResponse], by simp⟩
    · split
      · intro _
        exact ⟨⟨400, _, rfl, by simp⟩, by simp [htmlResponse], by simp⟩
      · split
        · intro _
          exact ⟨⟨500, "Failed to process file.", rfl, by simp⟩, by simp [htmlResponse], by simp⟩
        · split
          · intro _
            exact ⟨⟨500, "Failed to process file.", rfl, by simp⟩, by simp [htmlResponse], by simp⟩
          · split
            · intro _
              exact ⟨⟨500, "Failed to process file.", rfl, by simp⟩, by simp [htmlResponse], by simp⟩
            · dsimp only
              unfold returnPdfFile
              split
              · intro _
                exact ⟨⟨500, "Failed to generate PDF file.", rfl, by simp⟩,
                  by simp [htmlResponse], by simp⟩
              · intro h
                exact absurd rfl h

/-- C7 witness: a failing staging write is converted into the generic 500
`Failed to process file.` page. -/
theorem claim_C7_witness :
    (handleParsedUpload envW7 (some [1]) (str "a.xlsx")).1.statusCode ≠ 200 ∧
    ((∃ s m, (handleParsedUpload envW7 (some [1]) (str "a.xlsx")).1 = htmlResponse s (some m) ∧
      m ∈ ["No file was uploaded or file is invalid.",
           "File size exceeds 18MB limit.",
           "Invalid file format. Please upload an Excel (.xlsx) file.",
           "Failed to process file.",
           "Failed to generate PDF file."]) ∧
    (handleParsedUpload envW7 (some [1]) (str "a.xlsx")).1.isBase64Encoded ≠ some true ∧
    (handleParsedUpload envW7 (some [1]) (str "a.xlsx")).2.Nodup) :=
  ⟨by decide, claim_C7 envW7 (some [1]) (str "a.xlsx") (by decide)⟩

/-- C8: on a successful conversion the response is the 200 PDF response:
`Content-Type: application/pdf`, `Content-Length` equal to the output
file's byte size, `Content-Disposition: inline; filename="<basename>.pdf"`
with the basename the original filename minus its extension, and the PDF
bytes base64-encoded in the body; in particular `Q1.xlsx` yields the
filename `Q1.pdf`. -/
theorem claim_C8 (env : PipelineEnv) (file : List Nat) (fname : JSStr)
    (wb : Workbook) (pdf : List Nat)
    (hsize : file.length ≤ MAX_UPLOAD_FILE_SIZE_BYTES)
    (hfmt : endsWithL (str ".xlsx") (jsToLowerCase fname) = true)
    (hwrite : env.writeOutcome = .ok ())
    (hparse : env.parseXlsx file = some wb)
    (hconv : env.convert (env.serializeXlsx (scaleWorkbook wb)) = .ok (some pdf)) :
    (handleParsedUpload env (some file) fname).1 =
      { statusCode := 200
        headers := [("Content-Type", str "application/pdf"),
                    ("Content-Length", str (toString pdf.length)),
                    ("Content-Disposition",
                      str "inline; filename=\"" ++ (pathParseName fname ++ str ".pdf") ++ str "\"")]
        body := base64Encode pdf
        isBase64Encoded := some true } ∧
    pathParseName (str "Q1.xlsx") ++ str ".pdf" = str "Q1.pdf" := by
  have hnotlt : ¬ MAX_UPLOAD_FILE_SIZE_BYTES < file.length := Nat.not_lt.mpr hsize
  refine ⟨?_, by decide⟩
  unfold handleParsedUpload
  dsimp only
  rw [if_neg hnotlt, if_neg (by rw [hfmt]; simp), hwrite]
  dsimp only
  rw [show scaleExcelFile env.parseXlsx env.serializeXlsx
      (fun p => if p = STARTING_FILE_PATH then some file else env.tmpFs p)
      STARTING_FILE_PATH =
      .ok (fun p => if p = STARTING_FILE_PATH
        then some (env.serializeXlsx (scaleWorkbook wb))
        else if p = STARTING_FILE_PATH then some file else env.tmpFs p) from by
    simp [scaleExcelFile, hparse]]
  dsimp only
  rw [show (if STARTING_FILE_PATH = STARTING_FILE_PATH
      then some (env.serializeXlsx (scaleWorkbook wb))
      else if STARTING_FILE_PATH = STARTING_FILE_PATH then some file
      else env.tmpFs STARTING_FILE_PATH).getD [] =
      env.serializeXlsx (scaleWorkbook wb) from by simp]
  rw [hconv]
  dsimp only
  rw [if_pos rfl]
  rfl

/-- C8 witness: uploading `Q1.xlsx` in the fully successful environment
`envW` (the converter leaves the bytes `%PDF`). -/
theorem claim_C8_witness :
    ([1] : List Nat).length ≤ MAX_UPLOAD_FILE_SIZE_BYTES ∧
    endsWithL (str ".xlsx") (jsToLowerCase (str "Q1.xlsx")) = true ∧
    envW.writeOutcome = .ok () ∧
    envW.parseXlsx [1] = some wbW ∧
    envW.convert (envW.serializeXlsx (scaleWorkbook wbW)) = .ok (some [37, 80, 68, 70]) ∧
    ((handleParsedUpload envW (some [1]) (str "Q1.xlsx")).1 =
      { statusCode := 200
        headers := [("Content-Type", str "application/pdf"),
                    ("Content-Length", str (toString ([37, 80, 68, 70] : List Nat).length)),
                    ("Content-Disposition",
                      str "inline; filename=\"" ++ (pathParseName (str "Q1.xlsx") ++ str ".pdf") ++ str "\"")]
        body := base64Encode [37, 80, 68, 70]
        isBase64Encoded := some true } ∧
     pathParseName (str "Q1.xlsx") ++ str ".pdf" = str "Q1.pdf") :=
  ⟨by decide, by decide, rfl, rfl, rfl,
   claim_C8 envW [1] (str "Q1.xlsx") wbW [37, 80, 68, 70]
     (by decide) (by decide) rfl rfl rfl⟩

/-- C10: the handler is a total function of the event (it is defined for
every event and environment and, by the outer try/catch, converts any
exception thrown inside its body into the 500 `Internal server error`
HTML page without re-raising), and any HTTP method other than GET and
POST is answered with 405 and the HTML form page. -/
theorem claim_C10 (envF envN : PipelineEnv) (eAny eOther : APIGatewayProxyEvent)
    (d : String)
    (hf : envF.unexpectedFault = some d)
    (hn : envN.unexpectedFault = none)
    (hm1 : eOther.httpMethod ≠ "GET") (hm2 : eOther.httpMethod ≠ "POST") :
    handler envF eAny = (htmlResponse 500 (some "Internal server error"), []) ∧
    handler envN eOther = (htmlResponse 405 (some "Method not allowed"), []) := by
  constructor
  · unfold handler
    rw [hf]
  · unfold handler handlerRoute
    rw [hn, if_neg hm1, if_neg hm2]

/-- C10 witness: a faulted environment yields the 500 page for any event,
and a DELETE request in a healthy environment yields the 405 form page. -/
theorem claim_C10_witness :
    envWF.unexpectedFault = some "out of memory" ∧
    envW.unexpectedFault = none ∧
    evDelete.httpMethod ≠ "GET" ∧ evDelete.httpMethod ≠ "POST" ∧
    (handler envWF evDelete = (htmlResponse 500 (some "Internal server error"), []) ∧
     handler envW evDelete = (htmlResponse 405 (some "Method not allowed"), [])) :=
  ⟨rfl, rfl, by decide, by decide,
   claim_C10 envWF envW evDelete evDelete "out of memory" rfl rfl (by decide) (by decide)⟩

/-- `startsWithL` is the `take`-prefix test. -/
theorem startsWithL_iff_take (pat : List Nat) :
    ∀ l, startsWithL pat l = true ↔ l.take pat.length = pat := by
  induction pat with
  | nil => intro l; simp [startsWithL]
  | cons p ps ih =>
    intro l
    cases l with
    | nil => simp [startsWithL]
    | cons x xs =>
      simp only [startsWithL, Bool.and_eq_true, beq_iff_eq, ih xs,
        List.length_cons, List.take_succ_cons, List.cons.injEq]
      constructor
      · rintro ⟨rfl, h⟩; exact ⟨rfl, h⟩
      · rintro ⟨rfl, h⟩; exact ⟨rfl, h⟩

/-- Shifting the accumulator of the index scan. -/
theorem indexOfLGo_add (pat : List Nat) :
    ∀ l i, indexOfLGo pat l i = (indexOfLGo pat l 0).map (· + i) := by
  intro l
  induction l with
  | nil =>
    intro i
    by_cases h : startsWithL pat [] = true <;> simp [indexOfLGo, h]
  | cons x t ih =>
    intro i
    by_cases h : startsWithL pat (x :: t) = true
    · simp [indexOfLGo, h]
    · simp only [indexOfLGo, if_neg h]
      rw [ih (i + 1), ih 1]
      cases hv : indexOfLGo pat t 0 with
      | none => simp
      | some v => simp; omega

/-- Unfolding `indexOfL` on nil. -/
theorem indexOfL_nil (pat : List Nat) :
    indexOfL pat [] = if startsWithL pat [] = true then some 0 else none := by
  unfold indexOfL indexOfLGo
  by_cases h : startsWithL pat [] = true <;> simp [h]

/-- Unfolding `indexOfL` on cons. -/
theorem indexOfL_cons (pat : List Nat) (x : Nat) (t : List Nat) :
    indexOfL pat (x :: t) =
      if startsWithL pat (x :: t) = true then some 0
      else (indexOfL pat t).map (· + 1) := by
  unfold indexOfL
  by_cases h : startsWithL pat (x :: t) = true
  · simp [indexOfLGo, h]
  · simp only [indexOfLGo, if_neg h]
    exact indexOfLGo_add pat t 1

/-- `indexOfL` finds nothing iff the pattern starts at no position. -/
theorem indexOfL_eq_none_iff (pat : List Nat) :
    ∀ l, indexOfL pat l = none ↔ ∀ k, startsWithL pat (l.drop k) = false := by
  intro l
  induction l with
  | nil =>
    rw [indexOfL_nil]
    by_cases h : startsWithL pat [] = true
    · rw [if_pos h]
      constructor
      · intro hk; cases hk
      · intro hall; exact absurd (hall 0) (by simp [h])
    · rw [if_neg h]
      constructor
      · intro _ k
        simpa using Bool.not_eq_true _ ▸ (by simpa using h)
      · intro _; rfl
  | cons x t ih =>
    rw [indexOfL_cons]
    by_cases h : startsWithL pat (x :: t) = true
    · rw [if_pos h]
      constructor
      · intro hk; cases hk
      · intro hall; exact absurd (hall 0) (by simp [h])
    · rw [if_neg h]
      rw [Option.map_eq_none', ih]
      constructor
      · intro hall k
        cases k with
        | zero => simpa using h
        | succ k => simpa using hall k
      · intro hall k
        simpa using hall (k + 1)

/-- `indexOfL` returns the least position at which the pattern starts. -/
theorem indexOfL_eq_some_iff (pat : List Nat) :
    ∀ l k, indexOfL pat l = some k ↔
      (startsWithL pat (l.drop k) = true ∧
       ∀ j, j < k → startsWithL pat (l.drop j) = false) := by
  intro l
  induction l with
  | nil =>
    intro k
    rw [indexOfL_nil]
    by_cases h : startsWithL pat [] = true
    · rw [if_pos h]
      constructor
      · intro hk
        injection hk with h0
        subst h0
        exact ⟨by simpa using h, fun j hj => absurd hj (Nat.not_lt_zero j)⟩
      · rintro ⟨_, hall⟩
        cases k with
        | zero => rfl
        | succ k => exact absurd (hall 0 (Nat.succ_pos k)) (by simpa using h)
    · rw [if_neg h]
      constructor
      · intro hk; cases hk
      · rintro ⟨hs, _⟩
        rw [List.drop_nil] at hs
        exact absurd hs h
  | cons x t ih =>
    intro k
    rw [indexOfL_cons]
    by_cases h : startsWithL pat (x :: t) = true
    · rw [if_pos h]
      constructor
      · intro hk
        injection hk with h0
        subst h0
        exact ⟨by simpa using h, fun j hj => absurd hj (Nat.not_lt_zero j)⟩
      · rintro ⟨_, hall⟩
        cases k with
        | zero => rfl
        | succ k => exact absurd (hall 0 (Nat.succ_pos k)) (by simpa using h)
    · rw [if_neg h]
      cases k with
      | zero =>
        constructor
        · intro hk
          rcases Option.map_eq_some'.mp hk with ⟨v, _, hv⟩
          omega
        · rintro ⟨hs, _⟩
          rw [List.drop_zero] at hs
          exact absurd hs h
      | succ k =>
        constructor
        · intro hk
          rcases Option.map_eq_some'.mp hk with ⟨v, hv, hvk⟩
          have hvk' : v = k := by omega
          subst hvk'
          rcases (ih v).mp hv with ⟨hs, hall⟩
          refine ⟨by simpa using hs, ?_⟩
          intro j hj
          cases j with
          | zero => simpa using h
          | succ j => simpa using hall j (by omega)
        · rintro ⟨hs, hall⟩
          rw [(ih k).mpr ⟨by simpa using hs,
            fun j hj => by simpa using hall (j + 1) (by omega)⟩]
          rfl

/-- A pattern starts at the head of its own extension. -/
theorem startsWithL_append_self (pat t : List Nat) :
    startsWithL pat (pat ++ t) = true :=
  (startsWithL_iff_take pat _).mpr (List.take_left pat t)

/-- A match at the head gives index 0. -/
theorem indexOfL_of_startsWith (pat l : List Nat)
    (h : startsWithL pat l = true) : indexOfL pat l = some 0 := by
  cases l with
  | nil => rw [indexOfL_nil, if_pos h]
  | cons x t => rw [indexOfL_cons, if_pos h]

/-- A match at the head makes `includes` true. -/
theorem includesL_of_startsWith (pat l : List Nat)
    (h : startsWithL pat l = true) : includesL pat l = true := by
  unfold includesL
  rw [indexOfL_of_startsWith pat l h]
  rfl

/-- Taking at most `p ≤ q` elements from `dx ++ replicate q c` does not
depend on `q`. -/
theorem take_append_replicate (p : Nat) (dx : List Nat) (c q : Nat) (h : p ≤ q) :
    (dx ++ List.replicate q c).take p = dx.take p ++ List.replicate (p - dx.length) c := by
  rw [List.take_append_eq_append_take, List.take_replicate,
    min_eq_left (by omega)]

/-- The anchored prefix test on `dx ++ replicate q c` is insensitive to the
replicate length once it is at least the pattern length. -/
theorem startsWithL_append_replicate_congr (pat dx : List Nat) (c m n : Nat)
    (hm : pat.length ≤ m) (hn : pat.length ≤ n) :
    startsWithL pat (dx ++ List.replicate n c) =
      startsWithL pat (dx ++ List.replicate m c) := by
  rw [Bool.eq_iff_iff, startsWithL_iff_take, startsWithL_iff_take,
    take_append_replicate _ _ _ _ hn, take_append_replicate _ _ _ _ hm]

/-- The same insensitivity, after dropping `k ≤ |x|` elements. -/
theorem startsWithL_drop_transfer (pat x : List Nat) (c m n k : Nat)
    (hm : pat.length ≤ m) (hn : pat.length ≤ n) (hk : k ≤ x.length) :
    startsWithL pat ((x ++ List.replicate n c).drop k) =
      startsWithL pat ((x ++ List.replicate m c).drop k) := by
  rw [List.drop_append_of_le_length hk, List.drop_append_of_le_length hk]
  exact startsWithL_append_replicate_congr pat (x.drop k) c m n hm hn

/-- A pattern that is not a constant run never starts inside a replicate. -/
theorem startsWithL_replicate_false (pat : List Nat) (c q : Nat)
    (hne : pat ≠ List.replicate pat.length c) :
    startsWithL pat (List.replicate q c) = false := by
  by_contra h
  rw [Bool.not_eq_false] at h
  have htake := (startsWithL_iff_take pat _).mp h
  rw [List.take_replicate] at htake
  have hlen := congrArg List.length htake
  rw [List.length_replicate] at hlen
  apply hne
  rw [← hlen]
  exact htake.symm

/-- Absence of a (non-constant-run) pattern transfers from
`x ++ replicate |pat| c` to `x ++ replicate n c` for any `n ≥ |pat|`. -/
theorem indexOfL_append_replicate_none (pat x : List Nat) (c n : Nat)
    (hn : pat.length ≤ n) (hne : pat ≠ List.replicate pat.length c)
    (hnone : indexOfL pat (x ++ List.replicate pat.length c) = none) :
    indexOfL pat (x ++ List.replicate n c) = none := by
  rw [indexOfL_eq_none_iff] at hnone ⊢
  intro k
  by_cases hk : k ≤ x.length
  · rw [startsWithL_drop_transfer pat x c pat.length n k le_rfl hn hk]
    exact hnone k
  · rw [List.drop_append_eq_append_drop,
      List.drop_eq_nil_of_le (by omega), List.nil_append, List.drop_replicate]
    exact startsWithL_replicate_false pat c _ hne

/-- A first occurrence inside `x` transfers from `x ++ replicate |pat| c`
to `x ++ replicate n c` for any `n ≥ |pat|`. -/
theorem indexOfL_append_replicate_some (pat x : List Nat) (c n k : Nat)
    (hn : pat.length ≤ n) (hk : k ≤ x.length)
    (hsome : indexOfL pat (x ++ List.replicate pat.length c) = some k) :
    indexOfL pat (x ++ List.replicate n c) = some k := by
  rw [indexOfL_eq_some_iff] at hsome ⊢
  obtain ⟨hs, hall⟩ := hsome
  refine ⟨?_, fun j hj => ?_⟩
  · rw [startsWithL_drop_transfer pat x c pat.length n k le_rfl hn hk]
    exact hs
  · rw [startsWithL_drop_transfer pat x c pat.length n j le_rfl hn (by omega)]
    exact hall j hj

/-- `splitLGo` with no separator occurrence returns the whole list,
whatever the fuel. -/
theorem splitLGo_of_indexOfL_none (sep l : List Nat)
    (h : indexOfL sep l = none) : ∀ f, splitLGo sep f l = [l] := by
  intro f
  cases f with
  | zero => rfl
  | succ f => simp [splitLGo, h]

/-- The WHATWG decoder is the identity on ASCII bytes (given enough fuel). -/
theorem utf8DecodeGo_ascii :
    ∀ (f : Nat) (l : List Nat), l.length ≤ f → (∀ b ∈ l, b < 128) →
      utf8DecodeGo f l = l := by
  intro f
  induction f with
  | zero =>
    intro l hl _
    rw [List.length_eq_zero.mp (Nat.le_zero.mp hl)]
    rfl
  | succ f ih =>
    intro l hl hb
    cases l with
    | nil => rfl
    | cons b rest =>
      have hb0 : b < 128 := hb b (List.mem_cons_self _ _)
      unfold utf8DecodeGo
      rw [if_pos (show b < 0x80 from hb0),
        ih rest (by simp at hl; omega)
          (fun u hu => hb u (List.mem_cons_of_mem _ hu))]

/-- `Buffer#toString()` is the identity on ASCII bytes. -/
theorem utf8Decode_ascii (l : List Nat) (h : ∀ b ∈ l, b < 128) :
    utf8Decode l = l :=
  utf8DecodeGo_ascii l.length l le_rfl h

/-- `Buffer.from` is the identity on ASCII code units. -/
theorem utf8Encode_ascii :
    ∀ (l : JSStr), (∀ u ∈ l, u < 128) → utf8Encode l = l := by
  intro l
  induction l with
  | nil => intro _; rfl
  | cons u tail ih =>
    intro h
    have hu : u < 128 := h u (List.mem_cons_self _ _)
    cases tail with
    | nil =>
      unfold utf8Encode
      rw [if_neg (by simp; omega)]
      unfold utf8Bytes1
      rw [if_pos (show u < 0x80 from hu)]
    | cons v rest =>
      unfold utf8Encode
      rw [if_neg (by simp; omega), if_neg (by simp; omega)]
      rw [show utf8Bytes1 u = [u] from by unfold utf8Bytes1; rw [if_pos hu]]
      rw [ih (fun w hw => h w (List.mem_cons_of_mem _ hw))]
      rfl

/-- The filename regex finds nothing when its opening literal starts
nowhere. -/
theorem filenameMatch_eq_none (l : JSStr)
    (h : ∀ k, startsWithL filenameOpen (l.drop k) = false) :
    filenameMatch l = none := by
  induction l with
  | nil => rfl
  | cons u t ih =>
    have h0' := h 0
    rw [List.drop_zero] at h0'
    have h0 : filenameMatchAt (u :: t) = none := by
      unfold filenameMatchAt
      rw [if_neg (by simp [h0'])]
    unfold filenameMatch
    rw [h0]
    exact ih fun k => by simpa using h (k + 1)

/-- `headerBig` has 24 code units. -/
theorem headerBig_length : headerBig.length = 24 := by decide

/-- Every code unit of the oversize body is ASCII. -/
theorem bodyBig_ascii : ∀ u ∈ bodyBig, u < 128 := by
  intro u hu
  rcases List.mem_append.mp hu with h | h
  · exact (by decide : ∀ v ∈ headerBig, v < 128) u h
  · rcases (List.mem_replicate.mp h) with ⟨_, rfl⟩
    decide

/-- The split separator `--B` occurs nowhere in the oversize body. -/
theorem sepB_not_in_bodyBig : indexOfL (str "--" ++ str "B") bodyBig = none := by
  rw [show str "--" ++ str "B" = [45, 45, 66] from by decide]
  exact indexOfL_append_replicate_none [45, 45, 66] headerBig 97 18000001
    (by decide) (by decide) (by decide)

/-- The filename opening literal occurs nowhere in the oversize body. -/
theorem filenameOpen_not_in_bodyBig :
    ∀ k, startsWithL filenameOpen (bodyBig.drop k) = false :=
  (indexOfL_eq_none_iff filenameOpen bodyBig).mp
    (indexOfL_append_replicate_none filenameOpen headerBig 97 18000001
      (by decide) (by decide) (by decide))

/-- The blank line separating part headers from content sits at index 20
of the oversize body. -/
theorem crlfcrlf_idx_bodyBig : indexOfL crlfcrlf bodyBig = some 20 :=
  indexOfL_append_replicate_some crlfcrlf headerBig 97 18000001 20
    (by decide) (by decide) (by decide)

/-- The part marker `name="uploaded_file"` heads the oversize body. -/
theorem nameNeedle_in_bodyBig : includesL nameNeedle bodyBig = true := by
  apply includesL_of_startsWith
  rw [show bodyBig = nameNeedle ++ (crlfcrlf ++ List.replicate 18000001 97) from by
    rw [bodyBig, show headerBig = nameNeedle ++ crlfcrlf from by decide,
      List.append_assoc]]
  exact startsWithL_append_self _ _

/-- Parsing the oversize upload: the whole 18,000,025-unit body is decoded
(`materializeBody`), and the extracted file is the 18,000,001-byte run. -/
theorem parseMultipartFormData_evBig :
    parseMultipartFormData evBig =
      ((some (latin1Encode (List.replicate 18000001 97)), str "document.xlsx"),
       [StageEvent.materializeBody]) := by
  have hblen : bodyBig.length = 18000025 := by
    rw [bodyBig, List.length_append, List.length_replicate, headerBig_length]
  unfold parseMultipartFormData
  rw [show evBig.body = some bodyBig from rfl,
    show eventContentType evBig = some ctB from rfl]
  dsimp only
  rw [if_neg (by rw [hblen]; decide), if_neg (by decide), if_neg (by decide),
    show (splitL (str "boundary=") ctB).get? 1 = some (str "B") from by decide]
  dsimp only
  rw [if_neg (by decide)]
  rw [show evBig.isBase64Encoded = false from rfl]
  rw [show bodyBufferOf false bodyBig = bodyBig from by
    unfold bodyBufferOf
    rw [if_neg (by decide)]
    exact utf8Encode_ascii bodyBig bodyBig_ascii]
  rw [utf8Decode_ascii bodyBig bodyBig_ascii]
  rw [show splitL (str "--" ++ str "B") bodyBig = [bodyBig] from
    splitLGo_of_indexOfL_none _ _ sepB_not_in_bodyBig _]
  unfold extractFromParts
  rw [if_pos nameNeedle_in_bodyBig,
    filenameMatch_eq_none bodyBig filenameOpen_not_in_bodyBig,
    crlfcrlf_idx_bodyBig]
  dsimp only
  rw [show bodyBig.drop (20 + 4) = List.replicate 18000001 97 from by
    rw [bodyBig, show (20 + 4 : Nat) = headerBig.length from headerBig_length.symm,
      List.drop_left]]
  rfl

/-- The extracted oversize file is one byte over the ceiling. -/
theorem latin1_bodyBig_length :
    (latin1Encode (List.replicate 18000001 97)).length = 18000001 := by
  rw [latin1Encode, List.length_map, List.length_replicate]

/-- Running the oversize upload: the body is decoded in full, then the
size check rejects with 413. -/
theorem handleFileUpload_envW_evBig :
    handleFileUpload envW evBig =
      (htmlResponse 413 (some "File size exceeds 18MB limit."),
       [StageEvent.materializeBody, StageEvent.sizeCheck]) := by
  unfold handleFileUpload
  rw [parseMultipartFormData_evBig]
  dsimp only
  unfold handleParsedUpload
  dsimp only
  rw [if_pos (by rw [latin1_bodyBig_length]; decide)]
  exact Prod.ext (by decide) rfl

/-- The handler routes the oversize POST to `handleFileUpload`. -/
theorem handler_envW_evBig :
    handler envW evBig =
      (htmlResponse 413 (some "File size exceeds 18MB limit."),
       [StageEvent.materializeBody, StageEvent.sizeCheck]) := by
  unfold handler
  rw [show envW.unexpectedFault = none from rfl]
  unfold handlerRoute
  rw [if_neg (by decide), if_pos (by decide)]
  exact handleFileUpload_envW_evBig

/-- A 413 outcome arises only from the oversize branch: the file parsed to
`some` and exceeded the ceiling, and the stage trace is the size check
alone. -/
theorem handleParsedUpload_statusCode_413 (env : PipelineEnv)
    (f : Option (List Nat)) (fn : JSStr)
    (h : (handleParsedUpload env f fn).1.statusCode = 413) :
    (∃ file, f = some file ∧ MAX_UPLOAD_FILE_SIZE_BYTES < file.length) ∧
    (handleParsedUpload env f fn).2 = [StageEvent.sizeCheck] := by
  revert h
  unfold handleParsedUpload
  rcases f with _ | file
  · intro h; simp [htmlResponse] at h
  · dsimp only
    split
    · intro _
      exact ⟨⟨file, rfl, by assumption⟩, rfl⟩
    · split
      · intro h; simp [htmlResponse] at h
      · split
        · intro h; simp [htmlResponse] at h
        · split
          · intro h; simp [htmlResponse] at h
          · split
            · intro h; simp [htmlResponse] at h
            · unfold returnPdfFile
              split
              · intro h; simp [htmlResponse] at h
              · intro h; simp at h

/-- Whenever the parser returns a file, it has already decoded the whole
body: the parse trace is `[materializeBody]`. -/
theorem parseMultipartFormData_some_trace (e : APIGatewayProxyEvent)
    (file : List Nat) (h : (parseMultipartFormData e).1.1 = some file) :
    (parseMultipartFormData e).2 = [StageEvent.materializeBody] := by
  revert h
  unfold parseMultipartFormData
  cases hb : e.body with
  | none => intro h; simp at h
  | some b =>
    cases hct : eventContentType e with
    | none => intro h; simp at h
    | some ct =>
      dsimp only
      split
      · intro h; simp at h
      · split
        · intro h; simp at h
        · split
          · intro h; simp at h
          · split
            · intro h; simp at h
            · split
              · intro h; simp at h
              · intro _; rfl

/-- C9 counterexample: the claim (formalized as `claimC9Statement`) is
false.  The oversize upload `evBig` is rejected with 413, yet its trace is
`[materializeBody, sizeCheck]`: the parser decoded and buffered the whole
18,000,025-unit body before the size ceiling was enforced. -/
theorem claim_C9_counterexample : ¬ claimC9Statement := by
  intro h
  have h413 : (handler envW evBig).1.statusCode = 413 := by
    rw [handler_envW_evBig]; rfl
  apply h envW evBig h413
  rw [handler_envW_evBig]
  exact ⟨0, 1, Nat.zero_lt_one, rfl, rfl⟩

/-- C9 (amended): for every upload rejected through the oversize error
path (HTTP 413), the rejection occurs only after fully buffering the
body: the trace is exactly `[materializeBody, sizeCheck]`, with the whole
body decoded strictly before the size check. -/
theorem claim_C9_amended (env : PipelineEnv) (e : APIGatewayProxyEvent)
    (h : (handler env e).1.statusCode = 413) :
    (handler env e).2 = [StageEvent.materializeBody, StageEvent.sizeCheck] ∧
    materializedBeforeSizeCheck (handler env e).2 := by
  revert h
  unfold handler
  cases hf : env.unexpectedFault with
  | some d => intro h; simp [htmlResponse] at h
  | none =>
    unfold handlerRoute
    by_cases hg : e.httpMethod = "GET"
    · rw [if_pos hg]
      intro h; simp [htmlResponse] at h
    · rw [if_neg hg]
      by_cases hp : e.httpMethod = "POST"
      · rw [if_pos hp]
        unfold handleFileUpload
        dsimp only
        intro h
        obtain ⟨⟨file, hfile, _⟩, htr⟩ :=
          handleParsedUpload_statusCode_413 env _ _ h
        rw [htr, parseMultipartFormData_some_trace e file hfile]
        exact ⟨rfl, 0, 1, Nat.zero_lt_one, rfl, rfl⟩
      · rw [if_neg hp]
        intro h; simp [htmlResponse] at h

/-- C9 amended witness: the concrete oversize upload `evBig`. -/
theorem claim_C9_amended_witness :
    (handler envW evBig).1.statusCode = 413 ∧
    ((handler envW evBig).2 = [StageEvent.materializeBody, StageEvent.sizeCheck] ∧
     materializedBeforeSizeCheck (handler envW evBig).2) :=
  ⟨by rw [handler_envW_evBig]; rfl,
   claim_C9_amended envW evBig (by rw [handler_envW_evBig]; rfl)⟩

end LibreOfficeConvertLambda
